import Mathlib

/-
Verification development for the ClearCast AI front end.

The repository has two source files:
  * services/gemini.ts — the Generation Client (removeWatermarkFromImage,
    processVideoWatermark with its polling loop) and the Encoding Utility
    (fileToBase64);
  * App.tsx — the Session State Machine (upload / process / history) as a
    React component.

We shallow-embed the logic as pure Lean functions.  React state updates
become explicit record updates on SessionState; every awaited external
effect (remote responses, the key-provisioning collaborator, the
FileReader) is passed in as an explicit environment value, and the calls
the code issues are recorded in an event trace so that claims about
"no network call" or "prompt invoked exactly once" are statable.
JavaScript truthiness on nullable strings (null and the empty string are
both falsy) is modelled by strTruthy on Option String.
-/

namespace ClearCast

/-- The two tabs of the app, App.tsx activeTab : 'image' | 'video'. -/
inductive Mode
  | image
  | video
deriving DecidableEq, Repr

/-- EditHistory record from App.tsx (type, original, edited, timestamp). -/
structure EditHistory where
  type : Mode
  original : String
  edited : String
  timestamp : Nat
deriving DecidableEq, Repr

/-- The React state of the App component: one field per useState hook. -/
structure SessionState where
  activeTab : Mode
  selectedFile : Option String
  mimeType : String
  processedResult : Option String
  isProcessing : Bool
  history : List EditHistory
  error : Option String
  instruction : String
  videoAspectRatio : String
deriving DecidableEq, Repr

/-- JS truthiness for a nullable string: null/undefined and the empty
string are falsy, everything else is truthy. -/
def strTruthy : Option String → Bool
  | none => false
  | some s => !(s == "")

/-- Does the character list hay start with needle? -/
def charsStartWith : List Char → List Char → Bool
  | [], _ => true
  | _ :: _, [] => false
  | a :: as, b :: bs => a == b && charsStartWith as bs

/-- Does the character list hay contain needle as a contiguous run? -/
def charsContain (needle : List Char) : List Char → Bool
  | [] => charsStartWith needle []
  | b :: bs => charsStartWith needle (b :: bs) || charsContain needle bs

/-- JavaScript String.prototype.includes(needle) on hay. -/
def strContains (hay needle : String) : Bool :=
  charsContain needle.toList hay.toList

/-- JavaScript String.prototype.startsWith(needle) on hay. -/
def strStartsWith (hay needle : String) : Bool :=
  charsStartWith needle.toList hay.toList

/-- A thrown fault; err.message may be absent (undefined) in JS. -/
structure RemoteFault where
  message : Option String
deriving DecidableEq, Repr

/-- Observable calls the code makes to the outside world. -/
inductive Event
  | encodeRead
  | imageDispatch (base64Image mimeType instruction : String)
  | videoDispatch (prompt aspectRatio : String)
  | videoSubmit (prompt aspectRatio : String)
  | pollRequest (handle : String)
  | sleep (ms : Nat)
  | hasKeyQuery
  | openSelectKey
deriving DecidableEq, Repr

/-- Occurrences of one event in a trace. -/
def countEvent (e : Event) : List Event → Nat
  | [] => 0
  | x :: xs => (if x = e then 1 else 0) + countEvent e xs

/- ------------------------------------------------------------------ -/
/- services/gemini.ts : the Generation Client                          -/
/- ------------------------------------------------------------------ -/

/-- inlineData of a returned content part (mimeType + base64 data). -/
structure InlineData where
  mimeType : String
  data : String
deriving DecidableEq, Repr

/-- One content part of the image-edit response; may carry inlineData. -/
structure Part where
  inlineData : Option InlineData
deriving DecidableEq, Repr

/-- base64Image.split(',')[1] || base64Image — strip a data-URL header;
split(',')[1] is undefined (no comma) or may be empty, both falsy. -/
def stripDataUrl (s : String) : String :=
  match (s.splitOn ",").get? 1 with
  | some t => if t = "" then s else t
  | none => s

/-- The for-loop of removeWatermarkFromImage: first part with inlineData. -/
def findInlineData : List Part → Option InlineData
  | [] => none
  | p :: ps =>
    match p.inlineData with
    | some d => some d
    | none => findInlineData ps

/-- removeWatermarkFromImage from services/gemini.ts.  The remote
generateContent call is the environment respond, receiving exactly the
request fields the code sends (stripped payload, MIME type, instruction)
and returning either a thrown fault or the optional parts list
(candidates?.[0]?.content?.parts, defaulted to [] by the code).
Returns the first inline part rewrapped as a data URL, or null. -/
def removeWatermarkFromImage
    (respond : String → String → String → Except RemoteFault (Option (List Part)))
    (base64Image mimeType instruction : String) : Except RemoteFault (Option String) :=
  match respond (stripDataUrl base64Image) mimeType instruction with
  | Except.error f => Except.error f
  | Except.ok parts =>
    match findInlineData (parts.getD []) with
    | some d => Except.ok (some ("data:" ++ d.mimeType ++ ";base64," ++ d.data))
    | none => Except.ok none

/-- generatedVideos[i] with its video?.uri optional chain flattened. -/
structure GeneratedVideo where
  videoUri : Option String
deriving DecidableEq, Repr

/-- A long-running video operation: its handle (operation name), done
flag, and response?.generatedVideos when present. -/
structure VideosOperation where
  handle : String
  done : Bool
  generatedVideos : Option (List GeneratedVideo)
deriving DecidableEq, Repr

/-- operation.response?.generatedVideos?.[0]?.video?.uri -/
def firstVideoUri (op : VideosOperation) : Option String :=
  (op.generatedVideos.getD []).head?.bind GeneratedVideo.videoUri

/-- The while-loop of processVideoWatermark.  poll i op is the operation
returned by the i-th getVideosOperation call when passed op (the code
passes the whole current operation object).  fuel bounds the number of
iterations we unfold; none models a run that has not completed within
fuel polls (the source loop is unbounded).  The trace records the
10000 ms setTimeout wait and the handle of the operation each poll
request is issued against. -/
def videoPollLoop (poll : Nat → VideosOperation → VideosOperation) :
    Nat → Nat → VideosOperation → Option (VideosOperation × List Event)
  | 0, _, op => if op.done then some (op, []) else none
  | Nat.succ fuel1, i, op =>
    if op.done then some (op, [])
    else
      match videoPollLoop poll fuel1 (i + 1) (poll i op) with
      | none => none
      | some (fin, evs) =>
        some (fin, Event.sleep 10000 :: Event.pollRequest op.handle :: evs)

/-- Standing suffix appended to the user prompt by processVideoWatermark. -/
def veoSuffix : String :=
  ". Ensure the video is completely clean with no watermarks, logos, or overlays. High quality, seamless textures."

/-- processVideoWatermark from services/gemini.ts.  submit is the
generateVideos call (prompt, aspect ratio → initial operation), poll the
getVideosOperation call, apiKey the ambient process.env.API_KEY.  On a
completed run: the first generated video's URI with the key appended as
a query parameter, or null when no (or an empty) URI is present. -/
def processVideoWatermark (submit : String → String → VideosOperation)
    (poll : Nat → VideosOperation → VideosOperation) (apiKey : String)
    (fuel : Nat) (prompt aspectRatio : String) :
    Option (Option String × List Event) :=
  let fullPrompt := prompt ++ veoSuffix
  let op0 := submit fullPrompt aspectRatio
  match videoPollLoop poll fuel 0 op0 with
  | none => none
  | some (fin, evs) =>
    let downloadLink := firstVideoUri fin
    if strTruthy downloadLink then
      some (some (downloadLink.getD "" ++ "&key=" ++ apiKey),
            Event.videoSubmit fullPrompt aspectRatio :: evs)
    else
      some (none, Event.videoSubmit fullPrompt aspectRatio :: evs)

/- ------------------------------------------------------------------ -/
/- App.tsx : the Session State Machine                                 -/
/- ------------------------------------------------------------------ -/

/-- A selected file as handleFileSelect sees it: its declared MIME type. -/
structure JsFile where
  type : String
deriving DecidableEq, Repr

/-- handleFileSelect from App.tsx.  encodeResult is the settled promise
of fileToBase64 (ok = the data URL, error = FileReader onerror).  The
encodeRead event marks that the file-read (fileToBase64) was attempted. -/
def handleFileSelect (s : SessionState) :
    Option JsFile → Except Unit String → SessionState × List Event
  | none, _ => (s, [])
  | some f, encodeResult =>
    if s.activeTab = Mode.image ∧ strStartsWith f.type "image/" = false then
      ({ s with error := some "Please select an image file." }, [])
    else if s.activeTab = Mode.video ∧ strStartsWith f.type "video/" = false then
      ({ s with error := some "Please select a video file." }, [])
    else
      let s1 := { s with mimeType := f.type }
      match encodeResult with
      | Except.ok base64 =>
        ({ s1 with selectedFile := some base64, processedResult := none, error := none },
         [Event.encodeRead])
      | Except.error _ =>
        ({ s1 with error := some "Error reading file." }, [Event.encodeRead])

/-- Marker tested by the catch block of handleProcess. -/
def authMarker : String := "Requested entity was not found"

/-- Message the catch block displays, following err.message?.includes and
err.message || fallback (an absent or empty message is falsy). -/
def catchMessage (f : RemoteFault) : String :=
  match f.message with
  | some m =>
    if strContains m authMarker then
      "API Key configuration error. Please select a valid key."
    else if m = "" then "An unexpected error occurred." else m
  | none => "An unexpected error occurred."

/-- External calls the catch block makes: openSelectKey exactly when the
fault message contains the marker. -/
def catchEvents (f : RemoteFault) : List Event :=
  match f.message with
  | some m => if strContains m authMarker then [Event.openSelectKey] else []
  | none => []

/-- Environment of one handleProcess run: the image generateContent
responder, the collaborator's hasSelectedApiKey answer, the settled
outcome of the awaited processVideoWatermark promise, and Date.now. -/
structure RemoteEnv where
  imageRespond : String → String → String → Except RemoteFault (Option (List Part))
  hasSelectedApiKey : Bool
  videoOutcome : Except RemoteFault (Option String)
  now : Nat

/-- addToHistory from App.tsx: prepend the new record. -/
def addToHistory (t : Mode) (original edited : String) (now : Nat)
    (prev : List EditHistory) : List EditHistory :=
  { type := t, original := original, edited := edited, timestamp := now } :: prev

/-- The image arm of handleProcess's try block, applied to the state s0
that already has isProcessing set and error cleared. -/
def imageBranch (env : RemoteEnv) (s0 : SessionState) (src : String) :
    SessionState × List Event :=
  match removeWatermarkFromImage env.imageRespond src s0.mimeType s0.instruction with
  | Except.ok result =>
    if strTruthy result then
      ({ s0 with processedResult := some (result.getD ""),
                 history := addToHistory Mode.image src (result.getD "") env.now s0.history },
       [Event.imageDispatch src s0.mimeType s0.instruction])
    else
      ({ s0 with error := some "Failed to process the image." },
       [Event.imageDispatch src s0.mimeType s0.instruction])
  | Except.error f =>
    ({ s0 with error := some (catchMessage f) },
     Event.imageDispatch src s0.mimeType s0.instruction :: catchEvents f)

/-- The video arm of handleProcess's try block: checkAndPromptKey first
(hasSelectedApiKey, then openSelectKey when it answered false), then the
processVideoWatermark dispatch with the instruction as the prompt. -/
def videoBranch (env : RemoteEnv) (s0 : SessionState) (src : String) :
    SessionState × List Event :=
  let keyEvs := Event.hasKeyQuery ::
    (if env.hasSelectedApiKey then [] else [Event.openSelectKey])
  match env.videoOutcome with
  | Except.ok result =>
    if strTruthy result then
      ({ s0 with processedResult := some (result.getD ""),
                 history := addToHistory Mode.video src (result.getD "") env.now s0.history },
       keyEvs ++ [Event.videoDispatch s0.instruction s0.videoAspectRatio])
    else
      ({ s0 with error := some "Video processing timed out or failed." },
       keyEvs ++ [Event.videoDispatch s0.instruction s0.videoAspectRatio])
  | Except.error f =>
    ({ s0 with error := some (catchMessage f) },
     keyEvs ++ Event.videoDispatch s0.instruction s0.videoAspectRatio :: catchEvents f)

/-- handleProcess from App.tsx.  Guard: return when selectedFile is
falsy.  Otherwise set isProcessing and clear error, run the arm for the
active tab, and finally reset isProcessing. -/
def handleProcess (env : RemoteEnv) (s : SessionState) : SessionState × List Event :=
  if strTruthy s.selectedFile then
    let src := s.selectedFile.getD ""
    let s0 : SessionState := { s with isProcessing := true, error := none }
    let r :=
      match s.activeTab with
      | Mode.image => imageBranch env s0 src
      | Mode.video => videoBranch env s0 src
    ({ r.1 with isProcessing := false }, r.2)
  else (s, [])

/-- The startProcessing user action: the start/refine button carries
disabled when isProcessing (App.tsx line 313), so a click while a run is
in flight never reaches handleProcess. -/
def startProcessing (env : RemoteEnv) (s : SessionState) : SessionState × List Event :=
  if s.isProcessing then (s, []) else handleProcess env s

/-- clearCurrent from App.tsx (the Discard button). -/
def clearCurrent (s : SessionState) : SessionState :=
  { s with selectedFile := none, processedResult := none, error := none }

/-- A tab button: setActiveTab(m) then clearCurrent(). -/
def selectMode (m : Mode) (s : SessionState) : SessionState :=
  clearCurrent { s with activeTab := m }

/-- The onClick of a history list item (App.tsx lines 342 to 346):
setActiveTab(item.type); setSelectedFile(item.original);
setProcessedResult(item.edited).  Nothing else is touched. -/
def selectHistoryEntry (e : EditHistory) (s : SessionState) : SessionState :=
  { s with activeTab := e.type, selectedFile := some e.original,
           processedResult := some e.edited }

/-- The main preview pane (App.tsx line 241): processedResult when
truthy, otherwise the original selectedFile. -/
def displayedAsset (s : SessionState) : Option String :=
  if strTruthy s.processedResult then s.processedResult else s.selectedFile

/-- Does an event mention the string needle in one of its payloads? -/
def eventMentions (needle : String) : Event → Bool
  | Event.imageDispatch b m i =>
      strContains b needle || strContains m needle || strContains i needle
  | Event.videoDispatch p a => strContains p needle || strContains a needle
  | Event.videoSubmit p a => strContains p needle || strContains a needle
  | Event.pollRequest h => strContains h needle
  | _ => false

/- ------------------------------------------------------------------ -/
/- Concrete sample values used to instantiate the theorems             -/
/- ------------------------------------------------------------------ -/

/-- A quiet environment: empty image response, key present, video null. -/
def sampleEnv : RemoteEnv where
  imageRespond := fun _ _ _ => Except.ok (some [])
  hasSelectedApiKey := true
  videoOutcome := Except.ok none
  now := 0

/-- An image-mode session with a loaded source, as after one upload. -/
def sampleState : SessionState where
  activeTab := Mode.image
  selectedFile := some "data:image/png;base64,AAAA"
  mimeType := "image/png"
  processedResult := none
  isProcessing := false
  history := []
  error := none
  instruction := "Remove the watermark and logos, keeping the background seamless."
  videoAspectRatio := "16:9"

/-- A video-mode session whose source data URL is the string SRCDATA. -/
def videoState : SessionState :=
  { sampleState with activeTab := Mode.video, selectedFile := some "SRCDATA",
                     mimeType := "video/mp4", instruction := "clean sky" }

/-- A history record used to exercise selectHistoryEntry. -/
def sampleEntry : EditHistory where
  type := Mode.image
  original := "ORIG"
  edited := "EDITED"
  timestamp := 5

/-- An environment whose image call answers with one inline part. -/
def okImageEnv : RemoteEnv :=
  { sampleEnv with
    imageRespond := fun _ _ _ =>
      Except.ok (some [{ inlineData := some { mimeType := "image/png", data := "EDIT" } }]) }

/-- A fault whose message carries the authentication marker. -/
def authFault : RemoteFault where
  message := some "Error: Requested entity was not found."

/-- An environment whose image call throws the authentication fault. -/
def authFaultEnv : RemoteEnv :=
  { sampleEnv with imageRespond := fun _ _ _ => Except.error authFault }

/-- An environment whose image call throws a plain fault. -/
def plainFaultEnv : RemoteEnv :=
  { sampleEnv with
    imageRespond := fun _ _ _ => Except.error { message := some "boom" } }

/-- A concrete generateVideos submission: a pending job. -/
def sampleSubmit : String → String → VideosOperation := fun _ _ =>
  { handle := "operations/job-1", done := false, generatedVideos := none }

/-- A concrete remote: the first poll completes the job with one video. -/
def samplePoll : Nat → VideosOperation → VideosOperation := fun i op =>
  if i = 0 then
    { op with done := true,
              generatedVideos := some [{ videoUri := some "https://v/f.mp4?alt=media" }] }
  else op

/-- The completed operation samplePoll produces. -/
def sampleDoneOp : VideosOperation where
  handle := "operations/job-1"
  done := true
  generatedVideos := some [{ videoUri := some "https://v/f.mp4?alt=media" }]

/-- The events the catch block appends after a faulting call. -/
def faultTail : Except RemoteFault (Option String) → List Event
  | Except.error f => catchEvents f
  | Except.ok _ => []

/-- The events of one checkAndPromptKey call. -/
def keyEvents (hasKey : Bool) : List Event :=
  Event.hasKeyQuery :: (if hasKey then [] else [Event.openSelectKey])

/- ------------------------------------------------------------------ -/
/- Helper lemmas                                                       -/
/- ------------------------------------------------------------------ -/

theorem mem_catchEvents (f : RemoteFault) (e : Event) (h : e ∈ catchEvents f) :
    e = Event.openSelectKey := by
  unfold catchEvents at h
  split at h
  · split at h
    · exact List.mem_singleton.mp h
    · cases h
  · cases h

theorem mem_faultTail (o : Except RemoteFault (Option String)) (e : Event)
    (h : e ∈ faultTail o) : e = Event.openSelectKey := by
  cases o with
  | error f => exact mem_catchEvents f e h
  | ok r => cases h

theorem mem_keyEvents (b : Bool) (e : Event) (h : e ∈ keyEvents b) :
    e = Event.hasKeyQuery ∨ e = Event.openSelectKey := by
  unfold keyEvents at h
  rcases List.mem_cons.mp h with h | h
  · exact Or.inl h
  · cases b
    · simp only [if_neg Bool.false_ne_true] at h
      exact Or.inr (List.mem_singleton.mp h)
    · simp at h

/-- The image arm always emits exactly the dispatch followed by the
catch-block events of its outcome. -/
theorem imageBranch_trace (env : RemoteEnv) (s0 : SessionState) (src : String) :
    (imageBranch env s0 src).2 =
      Event.imageDispatch src s0.mimeType s0.instruction ::
        faultTail (removeWatermarkFromImage env.imageRespond src s0.mimeType s0.instruction) := by
  unfold imageBranch faultTail
  cases removeWatermarkFromImage env.imageRespond src s0.mimeType s0.instruction with
  | error f => rfl
  | ok result =>
    by_cases hres : strTruthy result = true
    · simp [hres]
    · simp [hres]

/-- The video arm always emits the key-check events, then exactly one
dispatch with the instruction and aspect ratio, then the catch-block
events of its outcome. -/
theorem videoBranch_trace (env : RemoteEnv) (s0 : SessionState) (src : String) :
    (videoBranch env s0 src).2 =
      keyEvents env.hasSelectedApiKey ++
        Event.videoDispatch s0.instruction s0.videoAspectRatio ::
          faultTail env.videoOutcome := by
  unfold videoBranch faultTail keyEvents
  cases env.videoOutcome with
  | error f => rfl
  | ok result =>
    by_cases hres : strTruthy result = true
    · simp [hres]
    · simp [hres]

/-- handleProcess in image mode is the image arm, with isProcessing
reset by the finally block. -/
theorem handleProcess_image (env : RemoteEnv) (s : SessionState)
    (hsrc : strTruthy s.selectedFile = true) (htab : s.activeTab = Mode.image) :
    handleProcess env s =
      ({ (imageBranch env { s with isProcessing := true, error := none }
            (s.selectedFile.getD "")).1 with isProcessing := false },
       (imageBranch env { s with isProcessing := true, error := none }
            (s.selectedFile.getD "")).2) := by
  unfold handleProcess
  rw [if_pos hsrc, htab]

/-- handleProcess in video mode is the video arm, with isProcessing
reset by the finally block. -/
theorem handleProcess_video (env : RemoteEnv) (s : SessionState)
    (hsrc : strTruthy s.selectedFile = true) (htab : s.activeTab = Mode.video) :
    handleProcess env s =
      ({ (videoBranch env { s with isProcessing := true, error := none }
            (s.selectedFile.getD "")).1 with isProcessing := false },
       (videoBranch env { s with isProcessing := true, error := none }
            (s.selectedFile.getD "")).2) := by
  unfold handleProcess
  rw [if_pos hsrc, htab]

/-- The image arm on a non-empty (truthy) result: store it and prepend
one history record built from the dispatched source and the result. -/
theorem imageBranch_success (env : RemoteEnv) (s0 : SessionState) (src r : String)
    (hok : removeWatermarkFromImage env.imageRespond src s0.mimeType s0.instruction =
      Except.ok (some r)) (hr : r ≠ "") :
    imageBranch env s0 src =
      ({ s0 with processedResult := some r,
                 history := { type := Mode.image, original := src, edited := r,
                              timestamp := env.now } :: s0.history },
       [Event.imageDispatch src s0.mimeType s0.instruction]) := by
  unfold imageBranch
  rw [hok]
  have ht : strTruthy (some r) = true := by
    simp [strTruthy, hr]
  simp [ht, addToHistory]

/-- The image arm on a null result: record the image failure message,
touch neither the stored result nor the history. -/
theorem imageBranch_empty (env : RemoteEnv) (s0 : SessionState) (src : String)
    (hok : removeWatermarkFromImage env.imageRespond src s0.mimeType s0.instruction =
      Except.ok none) :
    imageBranch env s0 src =
      ({ s0 with error := some "Failed to process the image." },
       [Event.imageDispatch src s0.mimeType s0.instruction]) := by
  unfold imageBranch
  rw [hok]
  rfl

/-- The image arm on a thrown fault: record the catch-block message. -/
theorem imageBranch_fault (env : RemoteEnv) (s0 : SessionState) (src : String)
    (f : RemoteFault)
    (hf : removeWatermarkFromImage env.imageRespond src s0.mimeType s0.instruction =
      Except.error f) :
    imageBranch env s0 src =
      ({ s0 with error := some (catchMessage f) },
       Event.imageDispatch src s0.mimeType s0.instruction :: catchEvents f) := by
  unfold imageBranch
  rw [hf]

/-- The video arm on a non-empty (truthy) result. -/
theorem videoBranch_success (env : RemoteEnv) (s0 : SessionState) (src r : String)
    (hok : env.videoOutcome = Except.ok (some r)) (hr : r ≠ "") :
    videoBranch env s0 src =
      ({ s0 with processedResult := some r,
                 history := { type := Mode.video, original := src, edited := r,
                              timestamp := env.now } :: s0.history },
       keyEvents env.hasSelectedApiKey ++
         [Event.videoDispatch s0.instruction s0.videoAspectRatio]) := by
  unfold videoBranch keyEvents
  rw [hok]
  have ht : strTruthy (some r) = true := by
    simp [strTruthy, hr]
  simp [ht, addToHistory]

/-- The video arm on a null result: record the video failure message,
touch neither the stored result nor the history. -/
theorem videoBranch_empty (env : RemoteEnv) (s0 : SessionState) (src : String)
    (hok : env.videoOutcome = Except.ok none) :
    videoBranch env s0 src =
      ({ s0 with error := some "Video processing timed out or failed." },
       keyEvents env.hasSelectedApiKey ++
         [Event.videoDispatch s0.instruction s0.videoAspectRatio]) := by
  unfold videoBranch keyEvents
  rw [hok]
  rfl

/-- The video arm on a thrown fault: record the catch-block message. -/
theorem videoBranch_fault (env : RemoteEnv) (s0 : SessionState) (src : String)
    (f : RemoteFault) (hf : env.videoOutcome = Except.error f) :
    videoBranch env s0 src =
      ({ s0 with error := some (catchMessage f) },
       keyEvents env.hasSelectedApiKey ++
         Event.videoDispatch s0.instruction s0.videoAspectRatio :: catchEvents f) := by
  unfold videoBranch keyEvents
  rw [hf]

/-- The image arm on any falsy (null or empty) result takes the
failure branch. -/
theorem imageBranch_untruthy (env : RemoteEnv) (s0 : SessionState) (src : String)
    (result : Option String)
    (hok : removeWatermarkFromImage env.imageRespond src s0.mimeType s0.instruction =
      Except.ok result) (ht : strTruthy result = false) :
    imageBranch env s0 src =
      ({ s0 with error := some "Failed to process the image." },
       [Event.imageDispatch src s0.mimeType s0.instruction]) := by
  unfold imageBranch
  rw [hok]
  simp [ht]

/-- The video arm on any falsy (null or empty) result takes the
failure branch. -/
theorem videoBranch_untruthy (env : RemoteEnv) (s0 : SessionState) (src : String)
    (result : Option String)
    (hok : env.videoOutcome = Except.ok result) (ht : strTruthy result = false) :
    videoBranch env s0 src =
      ({ s0 with error := some "Video processing timed out or failed." },
       keyEvents env.hasSelectedApiKey ++
         [Event.videoDispatch s0.instruction s0.videoAspectRatio]) := by
  unfold videoBranch keyEvents
  rw [hok]
  simp [ht]

/-- With the marker in the fault's message the catch block shows the
API-key-configuration text. -/
theorem catchMessage_marker (f : RemoteFault) (m : String)
    (hm : f.message = some m) (hc : strContains m authMarker = true) :
    catchMessage f = "API Key configuration error. Please select a valid key." := by
  obtain ⟨msg⟩ := f
  cases hm
  simp [catchMessage, hc]

/-- With the marker in the fault's message the catch block opens the
key-selection prompt once. -/
theorem catchEvents_marker (f : RemoteFault) (m : String)
    (hm : f.message = some m) (hc : strContains m authMarker = true) :
    catchEvents f = [Event.openSelectKey] := by
  obtain ⟨msg⟩ := f
  cases hm
  simp [catchEvents, hc]

/-- Without the marker the catch block shows the raw message when it is
non-empty and the generic fallback otherwise. -/
theorem catchMessage_no_marker (f : RemoteFault)
    (h : ∀ m, f.message = some m → strContains m authMarker = false) :
    catchMessage f =
      (match f.message with
       | some m => if m = "" then "An unexpected error occurred." else m
       | none => "An unexpected error occurred.") := by
  obtain ⟨msg⟩ := f
  cases msg with
  | none => rfl
  | some m =>
    have hc := h m rfl
    simp [catchMessage, hc]

/-- Without the marker the catch block never opens the prompt. -/
theorem catchEvents_no_marker (f : RemoteFault)
    (h : ∀ m, f.message = some m → strContains m authMarker = false) :
    catchEvents f = [] := by
  obtain ⟨msg⟩ := f
  cases msg with
  | none => rfl
  | some m =>
    have hc := h m rfl
    simp [catchEvents, hc]

theorem countEvent_append (e : Event) (l1 l2 : List Event) :
    countEvent e (l1 ++ l2) = countEvent e l1 + countEvent e l2 := by
  induction l1 with
  | nil => simp [countEvent]
  | cons x xs ih => simp [countEvent, ih, Nat.add_assoc]

/-- A non-empty stored result is what the preview pane shows. -/
theorem displayedAsset_some (s : SessionState) (p : String)
    (h : s.processedResult = some p) (hp : p ≠ "") :
    displayedAsset s = some p := by
  unfold displayedAsset
  rw [h]
  simp [strTruthy, hp]

/-- Invariant of the polling loop: when it completes within fuel, the
final operation is done, every poll request it issued named the handle
of the operation it started from (the remote preserves handles across
polls), and every suspension lasted 10000 ms. -/
theorem videoPollLoop_spec (poll : Nat → VideosOperation → VideosOperation)
    (hpoll : ∀ i op, (poll i op).handle = op.handle) :
    ∀ (fuel i : Nat) (op fin : VideosOperation) (evs : List Event),
      videoPollLoop poll fuel i op = some (fin, evs) →
      fin.done = true ∧
      (∀ h, Event.pollRequest h ∈ evs → h = op.handle) ∧
      (∀ ms, Event.sleep ms ∈ evs → ms = 10000) := by
  intro fuel
  induction fuel with
  | zero =>
    intro i op fin evs hrun
    unfold videoPollLoop at hrun
    by_cases hd : op.done = true
    · rw [if_pos hd] at hrun
      simp only [Option.some.injEq, Prod.mk.injEq] at hrun
      obtain ⟨hfin, hevs⟩ := hrun
      subst hfin
      subst hevs
      refine ⟨hd, ?_, ?_⟩ <;> intro x hx <;> cases hx
    · rw [if_neg hd] at hrun
      simp at hrun
  | succ fuel1 ih =>
    intro i op fin evs hrun
    unfold videoPollLoop at hrun
    by_cases hd : op.done = true
    · rw [if_pos hd] at hrun
      simp only [Option.some.injEq, Prod.mk.injEq] at hrun
      obtain ⟨hfin, hevs⟩ := hrun
      subst hfin
      subst hevs
      refine ⟨hd, ?_, ?_⟩ <;> intro x hx <;> cases hx
    · rw [if_neg hd] at hrun
      cases hrec : videoPollLoop poll fuel1 (i + 1) (poll i op) with
      | none =>
        rw [hrec] at hrun
        simp at hrun
      | some pr =>
        obtain ⟨fin0, evs0⟩ := pr
        rw [hrec] at hrun
        simp only [Option.some.injEq, Prod.mk.injEq] at hrun
        obtain ⟨hfin, hevs⟩ := hrun
        subst hfin
        subst hevs
        obtain ⟨hdone, hpolls, hsleeps⟩ := ih (i + 1) (poll i op) fin0 evs0 hrec
        refine ⟨hdone, ?_, ?_⟩
        · intro h hmem
          rcases List.mem_cons.mp hmem with h1 | hmem1
          · cases h1
          · rcases List.mem_cons.mp hmem1 with h2 | hmem2
            · exact (Event.pollRequest.injEq _ _).mp h2
            · rw [hpolls h hmem2, hpoll i op]
        · intro ms hmem
          rcases List.mem_cons.mp hmem with h1 | hmem1
          · exact ((Event.sleep.injEq _ _).mp h1)
          · rcases List.mem_cons.mp hmem1 with h2 | hmem2
            · cases h2
            · exact hsleeps ms hmem2

/-- The catch block never displays an empty message. -/
theorem catchMessage_ne_empty (f : RemoteFault) : catchMessage f ≠ "" := by
  unfold catchMessage
  split
  · split
    · decide
    · split
      · decide
      · assumption
  · decide

/- ------------------------------------------------------------------ -/
/- Claims                                                              -/
/- ------------------------------------------------------------------ -/

/-- Claim C1: when the source is empty (falsy) or a run is already in
flight, the startProcessing action leaves every field of the session
unchanged and issues no external call (empty event trace).  The
in-flight half of the guard is the disabled attribute on the
start/refine button; the empty-source half is the early return of
handleProcess. -/
theorem startProcessing_guard_noop (env : RemoteEnv) (s : SessionState)
    (h : strTruthy s.selectedFile = false ∨ s.isProcessing = true) :
    startProcessing env s = (s, []) := by
  rcases h with h | h
  · unfold startProcessing handleProcess
    rw [h]
    simp
  · unfold startProcessing
    rw [h]
    simp

/-- Claim C1 witness: a concrete in-flight session is left untouched. -/
theorem startProcessing_guard_noop_witness :
    ({ sampleState with isProcessing := true } : SessionState).isProcessing = true ∧
    startProcessing sampleEnv { sampleState with isProcessing := true } =
      ({ sampleState with isProcessing := true }, []) :=
  ⟨rfl, startProcessing_guard_noop sampleEnv _ (Or.inr rfl)⟩

/-- Claim C2 counterexample: in a concrete video-mode session whose
stored source asset is the string SRCDATA, processing does dispatch a
video-generation call, yet no event of the run carries the source in
any argument — the video call receives only the instruction and the
aspect ratio, so the claim that it receives the source asset is false. -/
theorem video_dispatch_without_source :
    videoState.selectedFile = some "SRCDATA" ∧
    Event.videoDispatch "clean sky" "16:9" ∈ (handleProcess sampleEnv videoState).2 ∧
    (handleProcess sampleEnv videoState).2.any (eventMentions "SRCDATA") = false := by
  decide

/-- Claim C2 amended: on every dispatch the image path invokes the
client with the source payload, its MIME type and the instruction; the
video path invokes the client with exactly the instruction (as prompt)
and the aspect ratio, and with nothing else — in particular not the
source asset. -/
theorem dispatch_arguments (env : RemoteEnv) (s : SessionState)
    (hsrc : strTruthy s.selectedFile = true) :
    (s.activeTab = Mode.image →
      Event.imageDispatch (s.selectedFile.getD "") s.mimeType s.instruction ∈
        (handleProcess env s).2) ∧
    (s.activeTab = Mode.video →
      Event.videoDispatch s.instruction s.videoAspectRatio ∈ (handleProcess env s).2 ∧
      ∀ p a, Event.videoDispatch p a ∈ (handleProcess env s).2 →
        p = s.instruction ∧ a = s.videoAspectRatio) := by
  unfold handleProcess
  rw [hsrc]
  constructor
  · intro htab
    rw [htab]
    simp only [imageBranch_trace]
    exact List.mem_cons_self _ _
  · intro htab
    rw [htab]
    simp only [videoBranch_trace]
    constructor
    · exact List.mem_append_right _ (List.mem_cons_self _ _)
    · intro p a hmem
      rcases List.mem_append.mp hmem with h | h
      · rcases mem_keyEvents _ _ h with h | h <;> cases h
      · rcases List.mem_cons.mp h with h | h
        · exact ⟨((Event.videoDispatch.injEq _ _ _ _).mp h).1,
                 ((Event.videoDispatch.injEq _ _ _ _).mp h).2⟩
        · cases mem_faultTail _ _ h

/-- Claim C2 amended, witness: the concrete video session dispatches
with its instruction and aspect ratio. -/
theorem dispatch_arguments_witness :
    strTruthy videoState.selectedFile = true ∧
    (Event.videoDispatch videoState.instruction videoState.videoAspectRatio ∈
      (handleProcess sampleEnv videoState).2 ∧
     ∀ p a, Event.videoDispatch p a ∈ (handleProcess sampleEnv videoState).2 →
       p = videoState.instruction ∧ a = videoState.videoAspectRatio) :=
  ⟨rfl, (dispatch_arguments sampleEnv videoState rfl).2 rfl⟩

/-- Claim C3 counterexample: selecting a history entry while the session
shows the error boom leaves that error in place — the onClick sets only
activeTab, selectedFile and processedResult, so the claim that any
current unsaved error is discarded is false. -/
theorem selectHistoryEntry_keeps_error :
    (selectHistoryEntry sampleEntry { sampleState with error := some "boom" }).error =
      some "boom" ∧
    ¬ (selectHistoryEntry sampleEntry
        { sampleState with error := some "boom" }).error = none := by
  decide

/-- Claim C3 amended: selecting a history entry sets mode, source and
result to exactly the entry's stored values, and leaves every other
field — including any current error, the history list, the instruction,
the MIME type, the aspect ratio and the processing flag — unchanged. -/
theorem selectHistoryEntry_restores (e : EditHistory) (s : SessionState) :
    (selectHistoryEntry e s).activeTab = e.type ∧
    (selectHistoryEntry e s).selectedFile = some e.original ∧
    (selectHistoryEntry e s).processedResult = some e.edited ∧
    (selectHistoryEntry e s).error = s.error ∧
    (selectHistoryEntry e s).history = s.history ∧
    (selectHistoryEntry e s).isProcessing = s.isProcessing ∧
    (selectHistoryEntry e s).instruction = s.instruction ∧
    (selectHistoryEntry e s).mimeType = s.mimeType ∧
    (selectHistoryEntry e s).videoAspectRatio = s.videoAspectRatio :=
  ⟨rfl, rfl, rfl, rfl, rfl, rfl, rfl, rfl, rfl⟩

/-- Claim C7: when the selected file's declared MIME type does not match
the active mode, handleFileSelect leaves the source and the stored MIME
type untouched, records the mode-specific wrong-file message, and makes
no external call at all (no encoding read, no network): the event trace
is empty. -/
theorem handleFileSelect_wrong_type (s : SessionState) (f : JsFile)
    (enc : Except Unit String)
    (hmis : (s.activeTab = Mode.image ∧ strStartsWith f.type "image/" = false) ∨
            (s.activeTab = Mode.video ∧ strStartsWith f.type "video/" = false)) :
    (handleFileSelect s (some f) enc).1.selectedFile = s.selectedFile ∧
    (handleFileSelect s (some f) enc).1.mimeType = s.mimeType ∧
    (s.activeTab = Mode.image →
      (handleFileSelect s (some f) enc).1.error = some "Please select an image file.") ∧
    (s.activeTab = Mode.video →
      (handleFileSelect s (some f) enc).1.error = some "Please select a video file.") ∧
    (handleFileSelect s (some f) enc).2 = [] := by
  simp only [handleFileSelect]
  rcases hmis with ⟨htab, hty⟩ | ⟨htab, hty⟩
  · rw [if_pos ⟨htab, hty⟩]
    refine ⟨rfl, rfl, fun _ => rfl, fun hv => ?_, rfl⟩
    rw [htab] at hv
    cases hv
  · have hni : ¬(s.activeTab = Mode.image ∧ strStartsWith f.type "image/" = false) := by
      rintro ⟨hi, _⟩
      rw [hi] at htab
      cases htab
    rw [if_neg hni, if_pos ⟨htab, hty⟩]
    refine ⟨rfl, rfl, fun hi => ?_, fun _ => rfl, rfl⟩
    rw [hi] at htab
    cases htab

/-- Claim C7 witness: selecting a video file while in image mode. -/
theorem handleFileSelect_wrong_type_witness :
    (sampleState.activeTab = Mode.image ∧
      strStartsWith "video/mp4" "image/" = false) ∧
    ((handleFileSelect sampleState (some { type := "video/mp4" })
        (Except.ok "XX")).1.selectedFile = sampleState.selectedFile ∧
     (handleFileSelect sampleState (some { type := "video/mp4" })
        (Except.ok "XX")).1.mimeType = sampleState.mimeType ∧
     (sampleState.activeTab = Mode.image →
       (handleFileSelect sampleState (some { type := "video/mp4" })
          (Except.ok "XX")).1.error = some "Please select an image file.") ∧
     (sampleState.activeTab = Mode.video →
       (handleFileSelect sampleState (some { type := "video/mp4" })
          (Except.ok "XX")).1.error = some "Please select a video file.") ∧
     (handleFileSelect sampleState (some { type := "video/mp4" })
        (Except.ok "XX")).2 = []) :=
  ⟨⟨rfl, by decide⟩,
   handleFileSelect_wrong_type sampleState { type := "video/mp4" } (Except.ok "XX")
     (Or.inl ⟨rfl, by decide⟩)⟩

/-- Claim C9: when the file's type matches the mode, the stored MIME
type is overwritten with the new file's declared type before the
encoding read is attempted; so a failing read leaves the old source in
place while mimeType already describes the new, never-loaded file. -/
theorem handleFileSelect_mime_updated_first (s : SessionState) (f : JsFile)
    (hok : (s.activeTab = Mode.image ∧ strStartsWith f.type "image/" = true) ∨
           (s.activeTab = Mode.video ∧ strStartsWith f.type "video/" = true)) :
    (handleFileSelect s (some f) (Except.error ())).1 =
      { s with mimeType := f.type, error := some "Error reading file." } ∧
    (handleFileSelect s (some f) (Except.error ())).1.selectedFile = s.selectedFile ∧
    (handleFileSelect s (some f) (Except.error ())).1.mimeType = f.type ∧
    (handleFileSelect s (some f) (Except.error ())).2 = [Event.encodeRead] := by
  simp only [handleFileSelect]
  have h1 : ¬(s.activeTab = Mode.image ∧ strStartsWith f.type "image/" = false) := by
    rintro ⟨hi, hty⟩
    rcases hok with ⟨_, ht⟩ | ⟨hv, _⟩
    · rw [ht] at hty
      cases hty
    · rw [hi] at hv
      cases hv
  have h2 : ¬(s.activeTab = Mode.video ∧ strStartsWith f.type "video/" = false) := by
    rintro ⟨hv, hty⟩
    rcases hok with ⟨hi, _⟩ | ⟨_, ht⟩
    · rw [hi] at hv
      cases hv
    · rw [ht] at hty
      cases hty
  rw [if_neg h1, if_neg h2]
  exact ⟨rfl, rfl, rfl, rfl⟩

/-- Claim C9 witness: a matching image file whose read fails. -/
theorem handleFileSelect_mime_updated_first_witness :
    (sampleState.activeTab = Mode.image ∧
      strStartsWith "image/jpeg" "image/" = true) ∧
    ((handleFileSelect sampleState (some { type := "image/jpeg" })
        (Except.error ())).1 =
      { sampleState with mimeType := "image/jpeg",
                         error := some "Error reading file." } ∧
     (handleFileSelect sampleState (some { type := "image/jpeg" })
        (Except.error ())).1.selectedFile = sampleState.selectedFile ∧
     (handleFileSelect sampleState (some { type := "image/jpeg" })
        (Except.error ())).1.mimeType = "image/jpeg" ∧
     (handleFileSelect sampleState (some { type := "image/jpeg" })
        (Except.error ())).2 = [Event.encodeRead]) :=
  ⟨⟨rfl, by decide⟩,
   handleFileSelect_mime_updated_first sampleState { type := "image/jpeg" }
     (Or.inl ⟨rfl, by decide⟩)⟩

/-- Claim C5: when a fault thrown by the dispatched call carries the
authentication marker in its message, the run ends with the API-key
configuration message (not the raw fault text) and the key-selection
prompt is opened exactly once by the fault handling; for any other
fault no prompt is opened and the raw message (or, when the message is
absent or empty, the generic fallback) is displayed. -/
theorem auth_fault_prompts_key_selection (env : RemoteEnv) (s : SessionState)
    (f : RemoteFault) (hsrc : strTruthy s.selectedFile = true)
    (hf : (s.activeTab = Mode.image ∧
            removeWatermarkFromImage env.imageRespond (s.selectedFile.getD "")
              s.mimeType s.instruction = Except.error f) ∨
          (s.activeTab = Mode.video ∧ env.hasSelectedApiKey = true ∧
            env.videoOutcome = Except.error f)) :
    (∀ m, f.message = some m → strContains m authMarker = true →
      (handleProcess env s).1.error =
        some "API Key configuration error. Please select a valid key." ∧
      countEvent Event.openSelectKey (handleProcess env s).2 = 1) ∧
    ((∀ m, f.message = some m → strContains m authMarker = false) →
      countEvent Event.openSelectKey (handleProcess env s).2 = 0 ∧
      (handleProcess env s).1.error =
        some (match f.message with
              | some m => if m = "" then "An unexpected error occurred." else m
              | none => "An unexpected error occurred.")) := by
  rcases hf with ⟨htab, herr⟩ | ⟨htab, hkey, herr⟩
  · rw [handleProcess_image env s hsrc htab, imageBranch_fault env { s with isProcessing := true, error := none } (s.selectedFile.getD "") f herr]
    constructor
    · intro m hm hc
      rw [catchMessage_marker f m hm hc, catchEvents_marker f m hm hc]
      exact ⟨rfl, by simp [countEvent]⟩
    · intro hno
      rw [catchMessage_no_marker f hno, catchEvents_no_marker f hno]
      exact ⟨by simp [countEvent], rfl⟩
  · rw [handleProcess_video env s hsrc htab, videoBranch_fault env { s with isProcessing := true, error := none } (s.selectedFile.getD "") f herr]
    constructor
    · intro m hm hc
      rw [catchEvents_marker f m hm hc, catchMessage_marker f m hm hc]
      refine ⟨rfl, ?_⟩
      rw [countEvent_append]
      simp [countEvent, keyEvents, hkey]
    · intro hno
      rw [catchEvents_no_marker f hno, catchMessage_no_marker f hno]
      refine ⟨?_, rfl⟩
      rw [countEvent_append]
      simp [countEvent, keyEvents, hkey]

/-- Claim C5 witness: an image run that throws the marker fault ends
with the configuration message and one key-prompt invocation. -/
theorem auth_fault_prompts_key_selection_witness :
    strTruthy sampleState.selectedFile = true ∧
    removeWatermarkFromImage authFaultEnv.imageRespond
      (sampleState.selectedFile.getD "") sampleState.mimeType
      sampleState.instruction = Except.error authFault ∧
    authFault.message = some "Error: Requested entity was not found." ∧
    strContains "Error: Requested entity was not found." authMarker = true ∧
    ((handleProcess authFaultEnv sampleState).1.error =
      some "API Key configuration error. Please select a valid key." ∧
     countEvent Event.openSelectKey (handleProcess authFaultEnv sampleState).2 = 1) :=
  ⟨rfl, rfl, rfl, by decide,
   (auth_fault_prompts_key_selection authFaultEnv sampleState authFault rfl
       (Or.inl ⟨rfl, rfl⟩)).1
     "Error: Requested entity was not found." rfl (by decide)⟩

/-- Claim C6: a successful image edit (non-null result) prepends exactly
one history record whose original is the source at dispatch and whose
edited asset is the returned result; it sits at index 0 and the rest of
the history is the previous list unchanged. -/
theorem image_success_appends_history (env : RemoteEnv) (s : SessionState)
    (r : String) (hsrc : strTruthy s.selectedFile = true)
    (htab : s.activeTab = Mode.image)
    (hok : removeWatermarkFromImage env.imageRespond (s.selectedFile.getD "")
      s.mimeType s.instruction = Except.ok (some r)) (hr : r ≠ "") :
    (handleProcess env s).1.history =
      { type := Mode.image, original := s.selectedFile.getD "", edited := r,
        timestamp := env.now } :: s.history ∧
    (handleProcess env s).1.processedResult = some r := by
  rw [handleProcess_image env s hsrc htab,
      imageBranch_success env { s with isProcessing := true, error := none } (s.selectedFile.getD "") r hok hr]
  exact ⟨rfl, rfl⟩

/-- Claim C6 witness: a concrete successful edit appends one record. -/
theorem image_success_appends_history_witness :
    strTruthy sampleState.selectedFile = true ∧
    sampleState.activeTab = Mode.image ∧
    removeWatermarkFromImage okImageEnv.imageRespond
      (sampleState.selectedFile.getD "") sampleState.mimeType
      sampleState.instruction = Except.ok (some "data:image/png;base64,EDIT") ∧
    ((handleProcess okImageEnv sampleState).1.history =
      { type := Mode.image, original := "data:image/png;base64,AAAA",
        edited := "data:image/png;base64,EDIT", timestamp := okImageEnv.now } ::
        sampleState.history ∧
     (handleProcess okImageEnv sampleState).1.processedResult =
       some "data:image/png;base64,EDIT") :=
  ⟨rfl, rfl, rfl,
   image_success_appends_history okImageEnv sampleState
     "data:image/png;base64,EDIT" rfl rfl rfl (by decide)⟩

/-- Claim C8: a run whose remote call succeeds but yields no usable
asset (null from either client operation) ends with the non-empty,
mode-specific failure message, leaves the stored result exactly as it
was before the run, and leaves the history unchanged. -/
theorem empty_result_failed (env : RemoteEnv) (s : SessionState)
    (hsrc : strTruthy s.selectedFile = true) :
    (s.activeTab = Mode.image →
      removeWatermarkFromImage env.imageRespond (s.selectedFile.getD "")
        s.mimeType s.instruction = Except.ok none →
      (handleProcess env s).1.error = some "Failed to process the image." ∧
      (handleProcess env s).1.processedResult = s.processedResult ∧
      (handleProcess env s).1.history = s.history) ∧
    (s.activeTab = Mode.video → env.videoOutcome = Except.ok none →
      (handleProcess env s).1.error = some "Video processing timed out or failed." ∧
      (handleProcess env s).1.processedResult = s.processedResult ∧
      (handleProcess env s).1.history = s.history) := by
  constructor
  · intro htab hok
    rw [handleProcess_image env s hsrc htab,
        imageBranch_untruthy env { s with isProcessing := true, error := none } (s.selectedFile.getD "") none hok rfl]
    exact ⟨rfl, rfl, rfl⟩
  · intro htab hok
    rw [handleProcess_video env s hsrc htab,
        videoBranch_untruthy env { s with isProcessing := true, error := none } (s.selectedFile.getD "") none hok rfl]
    exact ⟨rfl, rfl, rfl⟩

/-- Claim C8 witness: an image response with no inline part fails with
the image-specific message and an unchanged history. -/
theorem empty_result_failed_witness :
    strTruthy sampleState.selectedFile = true ∧
    sampleState.activeTab = Mode.image ∧
    removeWatermarkFromImage sampleEnv.imageRespond
      (sampleState.selectedFile.getD "") sampleState.mimeType
      sampleState.instruction = Except.ok none ∧
    ((handleProcess sampleEnv sampleState).1.error =
      some "Failed to process the image." ∧
     (handleProcess sampleEnv sampleState).1.processedResult =
       sampleState.processedResult ∧
     (handleProcess sampleEnv sampleState).1.history = sampleState.history) :=
  ⟨rfl, rfl, rfl, (empty_result_failed sampleEnv sampleState rfl).1 rfl rfl⟩

/-- Claim C10: a processing run never nulls the stored result, and a
refine run (previous result non-empty) that ends with a recorded error
— an empty result or a fault — leaves the session holding both the old
result (still the displayed asset) and a non-empty error message. -/
theorem refine_failure_keeps_stale_result (env : RemoteEnv) (s : SessionState)
    (p : String) (hsrc : strTruthy s.selectedFile = true)
    (hprev : s.processedResult = some p) (hp : p ≠ "") :
    (handleProcess env s).1.processedResult ≠ none ∧
    ((handleProcess env s).1.error ≠ none →
      (handleProcess env s).1.processedResult = some p ∧
      displayedAsset (handleProcess env s).1 = some p ∧
      (handleProcess env s).1.error ≠ some "") := by
  cases htab : s.activeTab with
  | image =>
    rw [handleProcess_image env s hsrc htab]
    cases hres : removeWatermarkFromImage env.imageRespond (s.selectedFile.getD "")
        s.mimeType s.instruction with
    | ok result =>
      by_cases ht : strTruthy result = true
      · obtain ⟨r, rfl⟩ : ∃ r, result = some r := by
          cases result with
          | none => cases ht
          | some r => exact ⟨r, rfl⟩
        have hr : r ≠ "" := by
          simpa [strTruthy] using ht
        rw [imageBranch_success env { s with isProcessing := true, error := none } (s.selectedFile.getD "") r hres hr]
        refine ⟨by simp, fun herr => absurd rfl herr⟩
      · rw [imageBranch_untruthy env { s with isProcessing := true, error := none } (s.selectedFile.getD "") result hres (by simpa using ht)]
        refine ⟨by simp [hprev], fun _ => ⟨hprev, displayedAsset_some _ p hprev hp, ?_⟩⟩
        intro h
        exact absurd (Option.some.inj h) (by decide)
    | error f =>
      rw [imageBranch_fault env { s with isProcessing := true, error := none } (s.selectedFile.getD "") f hres]
      refine ⟨by simp [hprev], fun _ => ⟨hprev, displayedAsset_some _ p hprev hp, ?_⟩⟩
      intro h
      exact catchMessage_ne_empty f (Option.some.inj h)
  | video =>
    rw [handleProcess_video env s hsrc htab]
    cases hres : env.videoOutcome with
    | ok result =>
      by_cases ht : strTruthy result = true
      · obtain ⟨r, rfl⟩ : ∃ r, result = some r := by
          cases result with
          | none => cases ht
          | some r => exact ⟨r, rfl⟩
        have hr : r ≠ "" := by
          simpa [strTruthy] using ht
        rw [videoBranch_success env { s with isProcessing := true, error := none } (s.selectedFile.getD "") r hres hr]
        refine ⟨by simp, fun herr => absurd rfl herr⟩
      · rw [videoBranch_untruthy env { s with isProcessing := true, error := none } (s.selectedFile.getD "") result hres (by simpa using ht)]
        refine ⟨by simp [hprev], fun _ => ⟨hprev, displayedAsset_some _ p hprev hp, ?_⟩⟩
        intro h
        exact absurd (Option.some.inj h) (by decide)
    | error f =>
      rw [videoBranch_fault env { s with isProcessing := true, error := none } (s.selectedFile.getD "") f hres]
      refine ⟨by simp [hprev], fun _ => ⟨hprev, displayedAsset_some _ p hprev hp, ?_⟩⟩
      intro h
      exact catchMessage_ne_empty f (Option.some.inj h)

/-- Claim C10 witness: a refine run over a previous result that ends in
an empty image result keeps the old result on display next to the new
error. -/
theorem refine_failure_keeps_stale_result_witness :
    strTruthy ({ sampleState with processedResult := some "PREV" } :
      SessionState).selectedFile = true ∧
    ({ sampleState with processedResult := some "PREV" } :
      SessionState).processedResult = some "PREV" ∧
    ((handleProcess sampleEnv
        { sampleState with processedResult := some "PREV" }).1.processedResult ≠
      none ∧
     ((handleProcess sampleEnv
         { sampleState with processedResult := some "PREV" }).1.error ≠ none →
       (handleProcess sampleEnv
         { sampleState with processedResult := some "PREV" }).1.processedResult =
           some "PREV" ∧
       displayedAsset (handleProcess sampleEnv
         { sampleState with processedResult := some "PREV" }).1 = some "PREV" ∧
       (handleProcess sampleEnv
         { sampleState with processedResult := some "PREV" }).1.error ≠ some "")) :=
  ⟨rfl, rfl,
   refine_failure_keeps_stale_result sampleEnv
     { sampleState with processedResult := some "PREV" } "PREV" rfl rfl
     (by decide)⟩

/-- Claim C4: over any remote that preserves the job handle across
polls, a video run that completes within fuel polls only ever issued
poll requests against the handle returned by the initial submission,
waited a fixed 10000 ms before each poll, stopped exactly when the job
reported done, and returned the first generated video's retrieval URI
with the credential appended as a query parameter — or null when no
(non-empty) URI is present. -/
theorem video_poll_same_handle (submit : String → String → VideosOperation)
    (poll : Nat → VideosOperation → VideosOperation) (apiKey : String)
    (fuel : Nat) (prompt aspectRatio : String) (fin : VideosOperation)
    (evs : List Event)
    (hpoll : ∀ i op, (poll i op).handle = op.handle)
    (hrun : videoPollLoop poll fuel 0 (submit (prompt ++ veoSuffix) aspectRatio) =
      some (fin, evs)) :
    fin.done = true ∧
    (∀ h, Event.pollRequest h ∈ evs →
      h = (submit (prompt ++ veoSuffix) aspectRatio).handle) ∧
    (∀ ms, Event.sleep ms ∈ evs → ms = 10000) ∧
    processVideoWatermark submit poll apiKey fuel prompt aspectRatio =
      some ((firstVideoUri fin).bind
              (fun u => if u = "" then none else some (u ++ "&key=" ++ apiKey)),
            Event.videoSubmit (prompt ++ veoSuffix) aspectRatio :: evs) := by
  obtain ⟨hdone, hpolls, hsleeps⟩ :=
    videoPollLoop_spec poll hpoll fuel 0 (submit (prompt ++ veoSuffix) aspectRatio)
      fin evs hrun
  refine ⟨hdone, hpolls, hsleeps, ?_⟩
  simp only [processVideoWatermark]
  rw [hrun]
  cases hu : firstVideoUri fin with
  | none => simp [strTruthy, hu]
  | some u =>
    by_cases hue : u = ""
    · simp [strTruthy, hu, hue]
    · simp [strTruthy, hu, hue]

/-- Claim C4 witness: a job that completes on the first poll. -/
theorem video_poll_same_handle_witness :
    (∀ i op, (samplePoll i op).handle = op.handle) ∧
    videoPollLoop samplePoll 3 0 (sampleSubmit ("clean sky" ++ veoSuffix) "16:9") =
      some (sampleDoneOp,
            [Event.sleep 10000, Event.pollRequest "operations/job-1"]) ∧
    (sampleDoneOp.done = true ∧
     (∀ h, Event.pollRequest h ∈
         ([Event.sleep 10000, Event.pollRequest "operations/job-1"] : List Event) →
       h = (sampleSubmit ("clean sky" ++ veoSuffix) "16:9").handle) ∧
     (∀ ms, Event.sleep ms ∈
         ([Event.sleep 10000, Event.pollRequest "operations/job-1"] : List Event) →
       ms = 10000) ∧
     processVideoWatermark sampleSubmit samplePoll "KEY" 3 "clean sky" "16:9" =
       some ((firstVideoUri sampleDoneOp).bind
               (fun u => if u = "" then none else some (u ++ "&key=" ++ "KEY")),
             Event.videoSubmit ("clean sky" ++ veoSuffix) "16:9" ::
               [Event.sleep 10000, Event.pollRequest "operations/job-1"])) := by
  have hp : ∀ i op, (samplePoll i op).handle = op.handle := by
    intro i op
    unfold samplePoll
    split <;> rfl
  exact ⟨hp, rfl,
    video_poll_same_handle sampleSubmit samplePoll "KEY" 3 "clean sky" "16:9"
      sampleDoneOp [Event.sleep 10000, Event.pollRequest "operations/job-1"] hp rfl⟩

end ClearCast
